import Mathlib

/-!
Verification of the open-valley entity-resolution and classification engine.

Shallow embedding of the relevant source functions:
- `src/src/schemas.py` : tax enums, `DwellingBase.get_tax_classification`,
  `PropertyOwnershipBase.validate_exactly_one_owner`, `parse_owner_name`,
  `STRReviewAction.validate_action_requirements`
- `src/src/models.py` : `Dwelling.tax_classification`
- `src/scripts/analysis/infer_dwellings_v2.py` : `parse_descprop_dwelling_count`,
  `classify_dwelling`, `infer_dwellings_positive_signal`
- `src/scripts/land/import_str.py` : centroid-fallback step of `match_listing_to_parcel`
- `src/api/scripts/import_vermont_unified.py` : `parse_owner_name`
- `src/src/main.py` : `update_str_review`

Python strings are modelled as `List Char` (ASCII semantics for the character
classes used by the source regexes), numeric values as `Int`/`Nat`/`ℚ`, and
code that can raise as `Except`/`Option` values.
-/

namespace OpenValley

/-- Abbreviation turning a string literal into the `List Char` representation
used throughout the embedding. -/
def str (s : String) : List Char := s.data

-- ===========================================================================
-- Enums (src/src/schemas.py)
-- ===========================================================================

/-- `TaxClassification` enum from `src/src/schemas.py`. -/
inductive TaxClassification where
  | HOMESTEAD
  | NHS_RESIDENTIAL
  | NHS_NONRESIDENTIAL
deriving DecidableEq, Repr

/-- `DwellingUse` enum from `src/src/schemas.py`. -/
inductive DwellingUse where
  | full_time_residence
  | short_term_rental
  | second_home
  | vacant
  | seasonal
  | commercial
  | unknown
deriving DecidableEq, Repr

/-- `DwellingType` enum from `src/src/schemas.py`. -/
inductive DwellingType where
  | main_house
  | adu
  | condo_unit
  | apartment
  | duplex_unit
  | mobile_home
  | other
deriving DecidableEq, Repr

/-- `OrganizationType` enum from `src/src/schemas.py`. -/
inductive OrganizationType where
  | llc
  | trust
  | corporation
  | government
  | nonprofit
  | association
  | other
deriving DecidableEq, Repr

-- ===========================================================================
-- Classification Function
-- ===========================================================================

/-- `DwellingBase.get_tax_classification` from `src/src/schemas.py` (lines
621-649), as a pure function of the two fields it reads: `use` and
`is_owner_occupied`.  The final `mapping.get(self.use)` dictionary lookup is
rendered as the last `match`; keys absent from the dictionary (and the
explicit `SEASONAL: None`, `UNKNOWN: None` entries) give `none`. -/
def get_tax_classification (use : Option DwellingUse) (is_owner_occupied : Option Bool) :
    Option TaxClassification :=
  match use with
  | none => none
  | some u =>
    if u = DwellingUse.full_time_residence then
      match is_owner_occupied with
      | some true => some TaxClassification.HOMESTEAD
      | some false => some TaxClassification.NHS_NONRESIDENTIAL
      | none => none
    else
      match u with
      | DwellingUse.short_term_rental => some TaxClassification.NHS_RESIDENTIAL
      | DwellingUse.second_home => some TaxClassification.NHS_RESIDENTIAL
      | DwellingUse.vacant => some TaxClassification.NHS_RESIDENTIAL
      | DwellingUse.commercial => some TaxClassification.NHS_NONRESIDENTIAL
      | _ => none

/-- `Dwelling.tax_classification` from `src/src/models.py` (lines 1318-1352),
as a pure function of `dwelling_use` and `is_owner_occupied`.  Unlike the
schema-level function it sends `SEASONAL` to `NHS_NONRESIDENTIAL`. -/
def dwelling_tax_classification (dwelling_use : Option DwellingUse)
    (is_owner_occupied : Option Bool) : Option TaxClassification :=
  match dwelling_use with
  | none => none
  | some u =>
    if u = DwellingUse.full_time_residence then
      match is_owner_occupied with
      | some true => some TaxClassification.HOMESTEAD
      | some false => some TaxClassification.NHS_NONRESIDENTIAL
      | none => none
    else if u = DwellingUse.second_home ∨ u = DwellingUse.short_term_rental ∨
        u = DwellingUse.vacant then
      some TaxClassification.NHS_RESIDENTIAL
    else if u = DwellingUse.seasonal ∨ u = DwellingUse.commercial then
      some TaxClassification.NHS_NONRESIDENTIAL
    else
      none

/-- Claim C1 counterexample: the claim states that the seasonal use never
yields any classification, but the model-level classification derivation
(`Dwelling.tax_classification` in `src/src/models.py`) maps a dwelling with
use `seasonal` to `NHS_NONRESIDENTIAL`, a classification. -/
theorem c1_seasonal_counterexample :
    ¬ (dwelling_tax_classification (some DwellingUse.seasonal) none = none) := by
  decide

/-- Claim C1 (amended): both classification derivations are pure deterministic
mappings from (use, is_owner_occupied); full-time residence with owner
occupancy true/false/unknown yields HOMESTEAD / NHS_NONRESIDENTIAL / nothing;
short-term rental, second home and vacant yield NHS_RESIDENTIAL; commercial
yields NHS_NONRESIDENTIAL; no use at all yields nothing.  The seasonal use
yields no classification under the schema-level function
`get_tax_classification`, while the model-level derivation
`dwelling_tax_classification` maps it to NHS_NONRESIDENTIAL. -/
theorem c1_classification_function :
    (∀ o, get_tax_classification (some DwellingUse.full_time_residence) o =
      dwelling_tax_classification (some DwellingUse.full_time_residence) o)
    ∧ get_tax_classification (some DwellingUse.full_time_residence) (some true) =
        some TaxClassification.HOMESTEAD
    ∧ get_tax_classification (some DwellingUse.full_time_residence) (some false) =
        some TaxClassification.NHS_NONRESIDENTIAL
    ∧ get_tax_classification (some DwellingUse.full_time_residence) none = none
    ∧ (∀ o, get_tax_classification (some DwellingUse.short_term_rental) o =
        some TaxClassification.NHS_RESIDENTIAL)
    ∧ (∀ o, get_tax_classification (some DwellingUse.second_home) o =
        some TaxClassification.NHS_RESIDENTIAL)
    ∧ (∀ o, get_tax_classification (some DwellingUse.vacant) o =
        some TaxClassification.NHS_RESIDENTIAL)
    ∧ (∀ o, get_tax_classification (some DwellingUse.commercial) o =
        some TaxClassification.NHS_NONRESIDENTIAL)
    ∧ (∀ o, get_tax_classification (some DwellingUse.seasonal) o = none)
    ∧ (∀ o, dwelling_tax_classification (some DwellingUse.seasonal) o =
        some TaxClassification.NHS_NONRESIDENTIAL)
    ∧ (∀ o u, u ≠ DwellingUse.seasonal →
        get_tax_classification (some u) o = dwelling_tax_classification (some u) o)
    ∧ (∀ o, get_tax_classification none o = none)
    ∧ (∀ u o, get_tax_classification u o = get_tax_classification u o) := by
  refine ⟨?_, ?_, ?_, ?_, ?_, ?_, ?_, ?_, ?_, ?_, ?_, ?_, ?_⟩
  case refine_11 => intro o u _; cases o <;> cases u <;> first | rfl | simp_all
  case refine_13 => intro u o; rfl
  all_goals decide

/-- Claim C1 witness: the hypothesis of the exception clause discharged at a
concrete use. -/
theorem c1_classification_function_witness :
    get_tax_classification (some DwellingUse.commercial) none =
      dwelling_tax_classification (some DwellingUse.commercial) none :=
  c1_classification_function.2.2.2.2.2.2.2.2.2.2.1 none DwellingUse.commercial
    (by decide)

-- ===========================================================================
-- Record Matcher: centroid-distance fallback (src/scripts/land/import_str.py)
-- ===========================================================================

/-- Confidence formula of the centroid-distance fallback in
`match_listing_to_parcel` (`src/scripts/land/import_str.py` line 278):
`max(0.45, 0.95 - (distance_m / 200))`. -/
def centroid_confidence (distance_m : ℚ) : ℚ :=
  max (45 / 100) (95 / 100 - distance_m / 200)

/-- The `ORDER BY distance_m LIMIT 1` step of the fallback query: return a
candidate parcel (id paired with its centroid distance in meters) of minimal
distance, or `none` when there are no candidates with coordinates. -/
def nearest_candidate : List (Nat × ℚ) → Option (Nat × ℚ)
  | [] => none
  | c :: cs => some (cs.foldl (fun acc x => if x.2 < acc.2 then x else acc) c)

/-- Centroid-distance fallback step of `match_listing_to_parcel`
(`src/scripts/land/import_str.py` lines 261-281): take the nearest candidate,
accept it with `centroid_confidence` when its distance is at most 200 m, and
reject otherwise. -/
def match_listing_centroid (cands : List (Nat × ℚ)) : Option (Nat × ℚ) :=
  match nearest_candidate cands with
  | none => none
  | some (pid, d) => if d ≤ 200 then some (pid, centroid_confidence d) else none

lemma nearest_candidate_foldl_mem (c : Nat × ℚ) (cs : List (Nat × ℚ)) :
    cs.foldl (fun acc x => if x.2 < acc.2 then x else acc) c ∈ c :: cs := by
  induction cs generalizing c with
  | nil => simp [List.foldl]
  | cons x xs ih =>
    simp only [List.foldl]
    by_cases hx : x.2 < c.2
    · rw [if_pos hx]
      exact List.mem_cons_of_mem c (ih x)
    · rw [if_neg hx]
      rcases List.mem_cons.mp (ih c) with h | h
      · simp [h]
      · exact List.mem_cons_of_mem _ (List.mem_cons_of_mem _ h)

lemma nearest_candidate_foldl_min (c : Nat × ℚ) (cs : List (Nat × ℚ)) :
    ∀ y ∈ c :: cs,
      (cs.foldl (fun acc x => if x.2 < acc.2 then x else acc) c).2 ≤ y.2 := by
  induction cs generalizing c with
  | nil => intro y hy; simp at hy; simp [List.foldl, hy]
  | cons x xs ih =>
    intro y hy
    simp only [List.foldl]
    have hc2 : (if x.2 < c.2 then x else c).2 ≤ c.2 := by
      by_cases hx : x.2 < c.2
      · rw [if_pos hx]; exact le_of_lt hx
      · rw [if_neg hx]
    have hx2 : (if x.2 < c.2 then x else c).2 ≤ x.2 := by
      by_cases hx : x.2 < c.2
      · rw [if_pos hx]
      · rw [if_neg hx]; exact le_of_not_lt hx
    have hhead := ih (if x.2 < c.2 then x else c) _ (List.mem_cons_self _ _)
    rcases List.mem_cons.mp hy with h | h
    · subst h; exact le_trans hhead hc2
    · rcases List.mem_cons.mp h with h' | h'
      · subst h'; exact le_trans hhead hx2
      · exact ih _ _ (List.mem_cons_of_mem _ h')

lemma nearest_candidate_spec (cands : List (Nat × ℚ)) (pid : Nat) (d : ℚ)
    (h : nearest_candidate cands = some (pid, d)) :
    (pid, d) ∈ cands ∧ ∀ c ∈ cands, d ≤ c.2 := by
  cases cands with
  | nil => simp [nearest_candidate] at h
  | cons c cs =>
    simp only [nearest_candidate, Option.some.injEq] at h
    constructor
    · rw [← h]; exact nearest_candidate_foldl_mem c cs
    · intro y hy
      have := nearest_candidate_foldl_min c cs y hy
      rw [h] at this
      exact this

/-- Claim C3: for every record matched by the centroid-distance fallback, the
returned confidence equals `max(0.45, 0.95 - distance_m/200)` where
`distance_m` is the distance to the nearest parcel centroid; the confidence is
a non-increasing function of distance and lies in [0.45, 0.95] (for
non-negative distances); and no match is returned when the nearest centroid is
farther than 200 meters. -/
theorem c3_centroid_fallback :
    (∀ cands pid conf, match_listing_centroid cands = some (pid, conf) →
      ∃ d, nearest_candidate cands = some (pid, d) ∧ (pid, d) ∈ cands ∧
        (∀ c ∈ cands, d ≤ c.2) ∧ conf = centroid_confidence d ∧ d ≤ 200 ∧
        (0 ≤ d → 45 / 100 ≤ conf ∧ conf ≤ 95 / 100))
    ∧ (∀ d₁ d₂ : ℚ, d₁ ≤ d₂ → centroid_confidence d₂ ≤ centroid_confidence d₁)
    ∧ (∀ cands pid d, nearest_candidate cands = some (pid, d) → 200 < d →
        match_listing_centroid cands = none) := by
  have hmono : ∀ d₁ d₂ : ℚ, d₁ ≤ d₂ → centroid_confidence d₂ ≤ centroid_confidence d₁ := by
    intro d₁ d₂ h
    unfold centroid_confidence
    apply max_le_max le_rfl
    have : d₁ / 200 ≤ d₂ / 200 := by
      apply div_le_div_of_nonneg_right h (by norm_num)
    linarith
  refine ⟨?_, hmono, ?_⟩
  · intro cands pid conf h
    unfold match_listing_centroid at h
    cases hn : nearest_candidate cands with
    | none => rw [hn] at h; simp at h
    | some pd =>
      obtain ⟨pid', d⟩ := pd
      rw [hn] at h
      have h2 : (if d ≤ 200 then some (pid', centroid_confidence d) else none) =
          some (pid, conf) := h
      by_cases hd : d ≤ 200
      · rw [if_pos hd] at h2
        have h' := Option.some.inj h2
        have hpid : pid' = pid := congrArg Prod.fst h'
        have hconf : centroid_confidence d = conf := congrArg Prod.snd h'
        subst hpid
        subst hconf
        obtain ⟨hmem, hmin⟩ := nearest_candidate_spec cands pid' d hn
        refine ⟨d, rfl, hmem, hmin, rfl, hd, ?_⟩
        intro hd0
        constructor
        · exact le_max_left _ _
        · unfold centroid_confidence
          apply max_le (by norm_num)
          have : 0 ≤ d / 200 := by positivity
          linarith
      · rw [if_neg hd] at h2
        exact absurd h2 (by simp)
  · intro cands pid d hn hd
    unfold match_listing_centroid
    rw [hn]
    simp [not_le.mpr hd, le_of_lt, not_le_of_lt hd]

/-- Claim C3 witness: the centroid fallback applied to a single candidate at
150 m, and monotonicity applied at 150 m vs 160 m. -/
theorem c3_centroid_fallback_witness :
    centroid_confidence 160 ≤ centroid_confidence 150 ∧
    (∃ d, nearest_candidate [(7, 150)] = some (7, d) ∧
      (7, d) ∈ [((7 : Nat), (150 : ℚ))] ∧ (∀ c ∈ [((7 : Nat), (150 : ℚ))], d ≤ c.2) ∧
      centroid_confidence 150 = centroid_confidence d ∧ d ≤ 200 ∧
      (0 ≤ d → 45 / 100 ≤ centroid_confidence 150 ∧ centroid_confidence 150 ≤ 95 / 100)) :=
  ⟨c3_centroid_fallback.2.1 150 160 (by norm_num),
   c3_centroid_fallback.1 [(7, 150)] 7 (centroid_confidence 150)
     (by norm_num [match_listing_centroid, nearest_candidate, List.foldl])⟩

-- ===========================================================================
-- PropertyOwnership (src/src/schemas.py, PropertyOwnershipBase)
-- ===========================================================================

/-- The fields of `PropertyOwnershipBase` (`src/src/schemas.py` lines 675-752)
relevant to the exactly-one-owner invariant.  UUIDs are modelled as naturals. -/
structure PropertyOwnershipR where
  person_id : Option Nat
  organization_id : Option Nat
  ownership_share : ℚ
  is_primary_owner : Bool
  as_listed_name : List Char
deriving DecidableEq, Repr

/-- Pydantic construction of a `PropertyOwnershipBase`: the field constraints
(`ownership_share` between 0 and 1, `as_listed_name` non-empty) are validated
first, then the `validate_exactly_one_owner` model validator (lines 742-752)
raises unless exactly one of `person_id` / `organization_id` is set. -/
def mk_property_ownership (person_id organization_id : Option Nat)
    (ownership_share : ℚ) (is_primary_owner : Bool) (as_listed_name : List Char) :
    Except (List Char) PropertyOwnershipR :=
  if ¬ (0 ≤ ownership_share ∧ ownership_share ≤ 1) then
    Except.error (str "ownership_share out of range")
  else if as_listed_name = [] then
    Except.error (str "as_listed_name too short")
  else if person_id.isSome = organization_id.isSome then
    Except.error
      (str "Exactly one of person_id or organization_id must be set, not both or neither.")
  else
    Except.ok
      { person_id := person_id
        organization_id := organization_id
        ownership_share := ownership_share
        is_primary_owner := is_primary_owner
        as_listed_name := as_listed_name }

/-- Claim C8: every successfully constructed PropertyOwnership has exactly one
of the person / organization references set (never both, never neither), and
any construction attempt with both or neither set fails with a validation
error for that record instead of silently defaulting. -/
theorem c8_exactly_one_owner :
    (∀ p o s b n r, mk_property_ownership p o s b n = Except.ok r →
      r.person_id = p ∧ r.organization_id = o ∧
      (r.person_id.isSome ↔ ¬ r.organization_id.isSome))
    ∧ (∀ p o s b n, p.isSome = o.isSome →
        ∃ e, mk_property_ownership p o s b n = Except.error e) := by
  constructor
  · intro p o s b n r h
    unfold mk_property_ownership at h
    by_cases h1 : ¬ (0 ≤ s ∧ s ≤ 1)
    · simp [h1] at h
    · by_cases h2 : n = []
      · simp [h1, h2] at h
      · by_cases h3 : p.isSome = o.isSome
        · simp [h1, h2, h3] at h
        · simp only [h1, h2, h3, if_false, if_neg, Except.ok.injEq] at h
          rw [← h]
          refine ⟨rfl, rfl, ?_⟩
          simp only []
          cases hp : p.isSome <;> cases ho : o.isSome <;>
            simp_all
  · intro p o s b n h
    unfold mk_property_ownership
    by_cases h1 : ¬ (0 ≤ s ∧ s ≤ 1)
    · refine ⟨str "ownership_share out of range", ?_⟩
      simp [h1]
    · by_cases h2 : n = []
      · refine ⟨str "as_listed_name too short", ?_⟩
        simp [h1, h2]
      · refine ⟨str
          "Exactly one of person_id or organization_id must be set, not both or neither.",
          ?_⟩
        simp [h1, h2, h]

/-- Claim C8 witness: a valid single-owner record constructs, and the
neither-owner attempt fails, at concrete inputs. -/
theorem c8_exactly_one_owner_witness :
    ((some 1 : Option Nat).isSome ↔ ¬ (none : Option Nat).isSome) ∧
    ∃ e, mk_property_ownership none none 1 true (str "MAD RIVER LLC") =
      Except.error e :=
  ⟨(c8_exactly_one_owner.1 (some 1) none 1 true (str "MAD RIVER LLC") _ rfl).2.2,
   c8_exactly_one_owner.2 none none 1 true (str "MAD RIVER LLC") rfl⟩

-- ===========================================================================
-- Review Ledger (src/src/schemas.py STRReviewAction, src/src/main.py
-- update_str_review)
-- ===========================================================================

/-- The `action` literal of `STRReviewAction` (`src/src/schemas.py` line 1231):
pydantic restricts it to confirm / reject / skip. -/
inductive ReviewActionKind where
  | confirm
  | reject
  | skip
deriving DecidableEq, Repr

/-- Validated `STRReviewAction` (`src/src/schemas.py` lines 1229-1248).
Listing and dwelling UUIDs are carried as their string forms. -/
structure STRReviewActionR where
  action : ReviewActionKind
  dwelling_id : Option (List Char)
  rejection_reason : Option (List Char)
  notes : Option (List Char)
deriving DecidableEq, Repr

/-- Pydantic construction of an `STRReviewAction`, running the
`validate_action_requirements` model validator (lines 1242-1248): a confirm
without a truthy `dwelling_id` (absent or empty string) and a reject without a
truthy `rejection_reason` are rejected. -/
def mk_str_review_action (action : ReviewActionKind)
    (dwelling_id rejection_reason notes : Option (List Char)) :
    Except (List Char) STRReviewActionR :=
  if action = ReviewActionKind.confirm ∧
      (dwelling_id = none ∨ dwelling_id = some []) then
    Except.error (str "dwelling_id is required when action is confirm")
  else if action = ReviewActionKind.reject ∧
      (rejection_reason = none ∨ rejection_reason = some []) then
    Except.error (str "rejection_reason is required when action is reject")
  else
    Except.ok
      { action := action
        dwelling_id := dwelling_id
        rejection_reason := rejection_reason
        notes := notes }

/-- The columns of a `Dwelling` row touched by `update_str_review`. -/
structure DwellingRow where
  id : List Char
  str_listing_id : Option (List Char)
deriving DecidableEq, Repr

/-- The columns of an `STRReviewStatus` row written by `update_str_review`. -/
structure ReviewStateR where
  status : List Char
  dwelling_id : Option (List Char)
  rejection_reason : Option (List Char)
  notes : Option (List Char)
deriving DecidableEq, Repr

/-- State transition of `update_str_review` (`src/src/main.py` lines
990-1074) on the review-status row and the dwelling table, for a validated
action.  Confirm looks up the referenced dwelling (404 when absent), marks the
review confirmed and overwrites that dwelling's `str_listing_id` with the
reviewed listing; reject marks the review rejected with the reason; skip only
updates the status and notes.  A confirm whose validated action still lacks a
dwelling id corresponds to the `UUID(None)` failure, surfaced as a 500. -/
def update_str_review (act : STRReviewActionR) (listing_id : List Char)
    (rs : ReviewStateR) (dwellings : List DwellingRow) :
    Except (Nat × List Char) (ReviewStateR × List DwellingRow) :=
  match act.action with
  | ReviewActionKind.confirm =>
    match act.dwelling_id with
    | none => Except.error (500, str "dwelling_id missing")
    | some did =>
      if dwellings.any (fun d => d.id = did) then
        Except.ok
          ({ status := str "confirmed"
             dwelling_id := some did
             rejection_reason := none
             notes := act.notes },
           dwellings.map (fun d =>
             if d.id = did then { d with str_listing_id := some listing_id } else d))
      else
        Except.error (404, str "Dwelling not found")
  | ReviewActionKind.reject =>
    Except.ok
      ({ status := str "rejected"
         dwelling_id := none
         rejection_reason := act.rejection_reason
         notes := act.notes },
       dwellings)
  | ReviewActionKind.skip =>
    Except.ok
      ({ rs with status := str "skipped", notes := act.notes }, dwellings)

/-- Claim C9: a confirm action without a target dwelling reference is rejected
as invalid at validation time, as is a reject action without a reason code;
and a successful confirm sets the review entry's status to confirmed and sets
the referenced dwelling's rental-listing link to the reviewed listing,
overwriting any prior automatic link. -/
theorem c9_review_ledger :
    (∀ rr nts, ∃ e,
      mk_str_review_action ReviewActionKind.confirm none rr nts = Except.error e)
    ∧ (∀ rr nts, ∃ e,
      mk_str_review_action ReviewActionKind.confirm (some []) rr nts = Except.error e)
    ∧ (∀ did nts, ∃ e,
      mk_str_review_action ReviewActionKind.reject did none nts = Except.error e)
    ∧ (∀ did nts, ∃ e,
      mk_str_review_action ReviewActionKind.reject did (some []) nts = Except.error e)
    ∧ (∀ act listing_id rs dwellings did rs2 dw2,
        act.action = ReviewActionKind.confirm →
        act.dwelling_id = some did →
        update_str_review act listing_id rs dwellings = Except.ok (rs2, dw2) →
        rs2.status = str "confirmed" ∧ rs2.dwelling_id = some did ∧
        (∀ d ∈ dw2, d.id = did → d.str_listing_id = some listing_id)) := by
  refine ⟨?_, ?_, ?_, ?_, ?_⟩
  · intro rr nts
    refine ⟨str "dwelling_id is required when action is confirm", ?_⟩
    simp [mk_str_review_action]
  · intro rr nts
    refine ⟨str "dwelling_id is required when action is confirm", ?_⟩
    simp [mk_str_review_action]
  · intro did nts
    refine ⟨str "rejection_reason is required when action is reject", ?_⟩
    simp [mk_str_review_action]
  · intro did nts
    refine ⟨str "rejection_reason is required when action is reject", ?_⟩
    simp [mk_str_review_action]
  · intro act listing_id rs dwellings did rs2 dw2 hact hdid h
    simp only [update_str_review, hact, hdid] at h
    split at h
    · have h' := Except.ok.inj h
      have hrs : rs2 = ⟨str "confirmed", some did, none, act.notes⟩ :=
        (congrArg Prod.fst h').symm
      have hdw : dw2 = dwellings.map (fun d =>
          if d.id = did then { d with str_listing_id := some listing_id } else d) :=
        (congrArg Prod.snd h').symm
      subst hrs
      subst hdw
      refine ⟨rfl, rfl, ?_⟩
      intro d hd hid
      rcases List.mem_map.mp hd with ⟨d0, _, hd0⟩
      by_cases h0 : d0.id = did
      · rw [if_pos h0] at hd0
        rw [← hd0]
      · rw [if_neg h0] at hd0
        rw [← hd0] at hid
        exact absurd hid h0
    · exact absurd h (by simp)

/-- Claim C9 witness: the validator failures and a successful confirm at
concrete inputs. -/
theorem c9_review_ledger_witness :
    (∃ e, mk_str_review_action ReviewActionKind.confirm none none none =
      Except.error e)
    ∧ (∃ e, mk_str_review_action ReviewActionKind.reject none none none =
      Except.error e)
    ∧ ((⟨str "confirmed", some (str "d1"), none, none⟩ : ReviewStateR).status =
        str "confirmed" ∧
      (⟨str "confirmed", some (str "d1"), none, none⟩ : ReviewStateR).dwelling_id =
        some (str "d1") ∧
      (∀ d ∈ [({ id := str "d1", str_listing_id := some (str "L9") } : DwellingRow)],
        d.id = str "d1" → d.str_listing_id = some (str "L9"))) :=
  ⟨c9_review_ledger.1 none none,
   c9_review_ledger.2.2.1 none none,
   c9_review_ledger.2.2.2.2
     ⟨ReviewActionKind.confirm, some (str "d1"), none, none⟩ (str "L9")
     ⟨str "unreviewed", none, none, none⟩
     [{ id := str "d1", str_listing_id := some (str "L0") }]
     (str "d1") _ _ rfl rfl rfl⟩

-- ===========================================================================
-- DESCPROP parsing (scripts/analysis/infer_dwellings_v2.py lines 52-87)
-- ===========================================================================

/-- Python regex `\s` on the ASCII range (the whitespace class used by the
source patterns). -/
def isPySpace (c : Char) : Bool :=
  c = ' ' || c = '\t' || c = '\n' || c = '\x0d' || c = '\x0b' || c = '\x0c'

/-- Python `str.upper()` on the ASCII range. -/
def upperL (s : List Char) : List Char := s.map Char.toUpper

/-- Python substring containment (`pat in text`). -/
def contains_sub (pat : List Char) : List Char → Bool
  | [] => List.isPrefixOf pat []
  | c :: rest => List.isPrefixOf pat (c :: rest) || contains_sub pat rest

/-- Python `int` applied to a non-empty decimal digit string. -/
def natOfDigits (ds : List Char) : Nat :=
  ds.foldl (fun a c => 10 * a + (c.toNat - Char.toNat '0')) 0

/-- Attempt of the regex `&\s*(\d+)\s*DWLS?` at one starting position:
an ampersand, optional whitespace, a non-empty digit run (the group), optional
whitespace, then the literal `DWL` (the optional trailing `S` does not affect
whether the pattern matches).  Returns the parsed count. -/
def match_count_at : List Char → Option Nat
  | '&' :: rest =>
    let r1 := rest.dropWhile isPySpace
    let ds := r1.takeWhile Char.isDigit
    if ds = [] then none
    else
      let r2 := (r1.dropWhile Char.isDigit).dropWhile isPySpace
      if List.isPrefixOf (str "DWL") r2 then some (natOfDigits ds) else none
  | _ => none

/-- `re.search` of `&\s*(\d+)\s*DWLS?`: leftmost matching position wins. -/
def search_count : List Char → Option Nat
  | [] => none
  | c :: rest =>
    match match_count_at (c :: rest) with
    | some n => some n
    | none => search_count rest

/-- Attempt of the regex `&\s*DWL[.\s:]?` at one starting position (the
optional final character class does not affect whether the pattern matches). -/
def match_dwl_at : List Char → Bool
  | '&' :: rest => List.isPrefixOf (str "DWL") (rest.dropWhile isPySpace)
  | _ => false

/-- `re.search` of `&\s*DWL[.\s:]?`. -/
def search_dwl : List Char → Bool
  | [] => false
  | c :: rest => match_dwl_at (c :: rest) || search_dwl rest

/-- `parse_descprop_dwelling_count` from
`scripts/analysis/infer_dwellings_v2.py` (lines 52-82; this is the v2 variant,
which has no condo/unit clause): explicit `& N DWLS` count first, then the
singular `& DWL` pattern, then the `& MF` multi-family marker (conservative
2), else 0. -/
def parse_descprop_dwelling_count (descprop : Option (List Char)) : Nat :=
  match descprop with
  | none => 0
  | some dp =>
    if dp = [] then 0
    else
      let text := upperL dp
      match search_count text with
      | some n => n
      | none =>
        if search_dwl text then 1
        else if contains_sub (str "& MF") text then 2
        else 0

-- ===========================================================================
-- Dwelling Inference Engine (scripts/analysis/infer_dwellings_v2.py)
-- ===========================================================================

/-- The `TaxStatus` columns read by the inference engine. -/
structure TaxStatusR where
  homestead_filed : Bool
  housesite_value : Option Int
deriving DecidableEq, Repr

/-- The `STRListing` columns read by the inference engine. -/
structure STRListingR where
  id : Nat
  bedrooms : Option Int
  platform : List Char
deriving DecidableEq, Repr

/-- The dict returned by `classify_dwelling`
(`scripts/analysis/infer_dwellings_v2.py` lines 94-135). -/
structure ClassifyResult where
  dwelling_use : DwellingUse
  dwelling_type : DwellingType
  is_owner_occupied : Option Bool
  tax_classification : List Char
  homestead_filed : Bool
deriving DecidableEq, Repr

/-- Python truthiness of `tax_status and tax_status.homestead_filed`. -/
def flag_true (tax_status : Option TaxStatusR) : Bool :=
  match tax_status with
  | some t => t.homestead_filed
  | none => false

/-- Python truthiness of
`tax_status and tax_status.housesite_value and tax_status.housesite_value > 0`. -/
def housesite_pos (tax_status : Option TaxStatusR) : Bool :=
  match tax_status with
  | some t =>
    match t.housesite_value with
    | some v => decide (0 < v)
    | none => false
  | none => false

/-- `classify_dwelling` from `scripts/analysis/infer_dwellings_v2.py` (lines
94-135), as a function of the two arguments its body reads (the `parcel` and
`data_source` parameters are unused by the logic). -/
def classify_dwelling (tax_status : Option TaxStatusR)
    (str_listing : Option STRListingR) : ClassifyResult :=
  let is_homestead := flag_true tax_status
  let has_str := str_listing.isSome
  if is_homestead then
    { dwelling_use := DwellingUse.full_time_residence
      dwelling_type := DwellingType.main_house
      is_owner_occupied := some true
      tax_classification := str "HOMESTEAD"
      homestead_filed := true }
  else if has_str then
    { dwelling_use := DwellingUse.short_term_rental
      dwelling_type := DwellingType.main_house
      is_owner_occupied := some false
      tax_classification := str "NHS_RESIDENTIAL"
      homestead_filed := false }
  else
    { dwelling_use := DwellingUse.second_home
      dwelling_type := DwellingType.main_house
      is_owner_occupied := none
      tax_classification := str "NHS_RESIDENTIAL"
      homestead_filed := false }

/-- The `Dwelling` row fields written by `infer_dwellings_positive_signal`
(`scripts/analysis/infer_dwellings_v2.py` lines 277-295). -/
structure DwellingRec where
  unit_number : Option (List Char)
  dwelling_type : DwellingType
  dwelling_use : DwellingUse
  is_owner_occupied : Option Bool
  homestead_filed : Bool
  str_listing_id : Option Nat
  bedrooms : Option Int
  data_source : List Char
  source_confidence : ℚ
deriving DecidableEq, Repr

/-- Assembly of one `Dwelling` row from a `classify_dwelling` dict, the data
source tag, the confidence, the unit label and the attached STR listing
(lines 277-295). -/
def mk_dwelling (attrs : ClassifyResult) (data_source : List Char)
    (source_confidence : ℚ) (unit_number : Option (List Char))
    (str_listing : Option STRListingR) : DwellingRec :=
  { unit_number := unit_number
    dwelling_type := attrs.dwelling_type
    dwelling_use := attrs.dwelling_use
    is_owner_occupied := attrs.is_owner_occupied
    homestead_filed := attrs.homestead_filed
    str_listing_id := str_listing.map (fun l => l.id)
    bedrooms := str_listing.bind (fun l => l.bedrooms)
    data_source := data_source
    source_confidence := source_confidence }

/-- Per-parcel core of `infer_dwellings_positive_signal`
(`scripts/analysis/infer_dwellings_v2.py` lines 205-295): the positive-signal
hierarchy producing the list of `Dwelling` rows created for one parcel from
its DESCPROP text, its tax-status record and its matched STR listings.
Signal 1 (DESCPROP count) creates one row per counted unit, the first tagged
from the homestead flag and later units consuming listings in order; signal 2
(homestead filed) creates one owner-occupied row; signal 3 (positive housesite
value) creates one row with the first listing attached; signal 4 creates one
row per matched listing; otherwise no row is created. -/
def infer_dwellings_parcel (descprop : Option (List Char))
    (tax_status : Option TaxStatusR) (str_listings : List STRListingR) :
    List DwellingRec :=
  let descprop_count := parse_descprop_dwelling_count descprop
  if 0 < descprop_count then
    (List.range descprop_count).map (fun i =>
      let str_listing := str_listings.get? i
      let attrs :=
        if i = 0 ∧ flag_true tax_status then classify_dwelling tax_status none
        else classify_dwelling none str_listing
      mk_dwelling attrs (str "descprop") (95 / 100)
        (if descprop_count = 1 then none
         else some (str "Unit-" ++ Nat.toDigits 10 (i + 1)))
        str_listing)
  else if flag_true tax_status then
    [mk_dwelling (classify_dwelling tax_status none) (str "homestead")
      (95 / 100) none none]
  else if housesite_pos tax_status then
    let str_listing := str_listings.head?
    [mk_dwelling (classify_dwelling none str_listing) (str "housesite")
      (85 / 100) none str_listing]
  else if str_listings.isEmpty then []
  else
    str_listings.map (fun l =>
      mk_dwelling (classify_dwelling none (some l)) (str "str_listing")
        (80 / 100) none (some l))

/-- Claim C2: for every parcel where no positive signal is present (DESCPROP
dwelling count 0, homestead flag not true, no positive housesite value, no
matched STR listing), the inference engine creates zero dwellings. -/
theorem c2_no_signal_no_dwelling (descprop : Option (List Char))
    (tax_status : Option TaxStatusR) (str_listings : List STRListingR)
    (h1 : parse_descprop_dwelling_count descprop = 0)
    (h2 : flag_true tax_status = false)
    (h3 : housesite_pos tax_status = false)
    (h4 : str_listings = []) :
    infer_dwellings_parcel descprop tax_status str_listings = [] := by
  subst h4
  simp [infer_dwellings_parcel, h1, h2, h3]

/-- Claim C2 witness: a parcel with a plain acreage description, an unfiled
homestead, a zero housesite value and no listings yields no dwellings. -/
theorem c2_no_signal_no_dwelling_witness :
    infer_dwellings_parcel (some (str "5 ACRES"))
      (some ⟨false, some 0⟩) [] = [] :=
  c2_no_signal_no_dwelling (some (str "5 ACRES")) (some ⟨false, some 0⟩) []
    (by decide) (by decide) (by decide) rfl

/-- Claim C4 counterexample: a parcel with no description signal, no homestead
flag and no housesite value but two matched STR listings satisfies "exactly
one of the weaker signals applies", yet the engine creates two dwellings (one
per listing), not exactly one as the claim states. -/
theorem c4_counterexample :
    parse_descprop_dwelling_count (some (str "94 WOODS RD")) = 0 ∧
    flag_true none = false ∧
    housesite_pos none = false ∧
    ([⟨1, none, str "airbnb"⟩, ⟨2, none, str "vrbo"⟩] : List STRListingR) ≠ [] ∧
    (infer_dwellings_parcel (some (str "94 WOODS RD")) none
      [⟨1, none, str "airbnb"⟩, ⟨2, none, str "vrbo"⟩]).length = 2 ∧
    ¬ (infer_dwellings_parcel (some (str "94 WOODS RD")) none
      [⟨1, none, str "airbnb"⟩, ⟨2, none, str "vrbo"⟩]).length = 1 := by
  decide

/-- Claim C4 (amended): with no description signal, if the homestead filing
flag alone applies, exactly one dwelling is created, owner-occupied full-time
residence; if a positive housesite value alone applies, exactly one dwelling
is created, second home with unknown occupancy (with no listing to attach);
if matched STR listings alone apply, one dwelling is created per matched
listing — hence exactly one when exactly one listing matched — each a
short-term rental as primary use with its listing attached. -/
theorem c4_single_weak_signal :
    (∀ descprop tax_status str_listings,
      parse_descprop_dwelling_count descprop = 0 →
      flag_true tax_status = true →
      housesite_pos tax_status = false →
      str_listings = [] →
      infer_dwellings_parcel descprop tax_status str_listings =
        [mk_dwelling (classify_dwelling tax_status none) (str "homestead")
          (95 / 100) none none] ∧
      ∀ d ∈ infer_dwellings_parcel descprop tax_status str_listings,
        d.dwelling_use = DwellingUse.full_time_residence ∧
        d.is_owner_occupied = some true ∧ d.data_source = str "homestead")
    ∧ (∀ descprop tax_status str_listings,
      parse_descprop_dwelling_count descprop = 0 →
      flag_true tax_status = false →
      housesite_pos tax_status = true →
      str_listings = [] →
      (infer_dwellings_parcel descprop tax_status str_listings).length = 1 ∧
      ∀ d ∈ infer_dwellings_parcel descprop tax_status str_listings,
        d.dwelling_use = DwellingUse.second_home ∧
        d.is_owner_occupied = none ∧ d.str_listing_id = none ∧
        d.data_source = str "housesite")
    ∧ (∀ descprop tax_status str_listings,
      parse_descprop_dwelling_count descprop = 0 →
      flag_true tax_status = false →
      housesite_pos tax_status = false →
      str_listings ≠ [] →
      (infer_dwellings_parcel descprop tax_status str_listings).length =
        str_listings.length ∧
      (str_listings.length = 1 →
        (infer_dwellings_parcel descprop tax_status str_listings).length = 1) ∧
      ∀ d ∈ infer_dwellings_parcel descprop tax_status str_listings,
        d.dwelling_use = DwellingUse.short_term_rental ∧
        d.is_owner_occupied = some false ∧ d.str_listing_id ≠ none ∧
        d.data_source = str "str_listing") := by
  refine ⟨?_, ?_, ?_⟩
  · intro descprop tax_status str_listings h1 h2 h3 h4
    subst h4
    have hres : infer_dwellings_parcel descprop tax_status [] =
        [mk_dwelling (classify_dwelling tax_status none) (str "homestead")
          (95 / 100) none none] := by
      simp [infer_dwellings_parcel, h1, h2]
    refine ⟨hres, ?_⟩
    intro d hd
    rw [hres, List.mem_singleton] at hd
    subst hd
    simp [mk_dwelling, classify_dwelling, h2]
  · intro descprop tax_status str_listings h1 h2 h3 h4
    subst h4
    have hres : infer_dwellings_parcel descprop tax_status [] =
        [mk_dwelling (classify_dwelling none none) (str "housesite")
          (85 / 100) none none] := by
      simp [infer_dwellings_parcel, h1, h2, h3, List.head?]
    refine ⟨by rw [hres]; rfl, ?_⟩
    intro d hd
    rw [hres, List.mem_singleton] at hd
    subst hd
    simp [mk_dwelling, classify_dwelling, flag_true]
  · intro descprop tax_status str_listings h1 h2 h3 h4
    have hres : infer_dwellings_parcel descprop tax_status str_listings =
        str_listings.map (fun l =>
          mk_dwelling (classify_dwelling none (some l)) (str "str_listing")
            (80 / 100) none (some l)) := by
      simp [infer_dwellings_parcel, h1, h2, h3, List.isEmpty_iff, h4]
    refine ⟨by rw [hres]; exact List.length_map _ _, ?_, ?_⟩
    · intro h
      rw [hres, List.length_map, h]
    · intro d hd
      rw [hres] at hd
      rcases List.mem_map.mp hd with ⟨l, _, hl⟩
      subst hl
      simp [mk_dwelling, classify_dwelling, flag_true]

/-- Claim C4 witness: the three single-signal cases at concrete inputs. -/
theorem c4_single_weak_signal_witness :
    (infer_dwellings_parcel (some (str "5 ACRES")) (some ⟨true, none⟩) [] =
      [mk_dwelling (classify_dwelling (some ⟨true, none⟩) none)
        (str "homestead") (95 / 100) none none])
    ∧ (infer_dwellings_parcel (some (str "5 ACRES"))
        (some ⟨false, some 100000⟩) []).length = 1
    ∧ (infer_dwellings_parcel (some (str "5 ACRES")) none
        [⟨1, some 3, str "airbnb"⟩]).length = 1 :=
  ⟨(c4_single_weak_signal.1 (some (str "5 ACRES")) (some ⟨true, none⟩) []
      (by decide) (by decide) (by decide) rfl).1,
   (c4_single_weak_signal.2.1 (some (str "5 ACRES")) (some ⟨false, some 100000⟩) []
      (by decide) (by decide) (by decide) rfl).1,
   (c4_single_weak_signal.2.2 (some (str "5 ACRES")) none [⟨1, some 3, str "airbnb"⟩]
      (by decide) (by decide) (by decide) (by decide)).2.1 rfl⟩

-- ===========================================================================
-- C10: invariant of the inferred dwellings
-- ===========================================================================

/-- The invariant claimed for every dwelling produced by the positive-signal
inference engine: the use is one of full-time residence / short-term rental /
second home, the owner-occupancy flag corresponds exactly to the use, and the
derived tax classification is determined and is HOMESTEAD or NHS_RESIDENTIAL,
never NHS_NONRESIDENTIAL. -/
def inferred_dwelling_ok (d : DwellingRec) : Prop :=
  (d.dwelling_use = DwellingUse.full_time_residence ∨
    d.dwelling_use = DwellingUse.short_term_rental ∨
    d.dwelling_use = DwellingUse.second_home)
  ∧ (d.is_owner_occupied = some true ↔
      d.dwelling_use = DwellingUse.full_time_residence)
  ∧ (d.is_owner_occupied = some false ↔
      d.dwelling_use = DwellingUse.short_term_rental)
  ∧ (d.is_owner_occupied = none ↔ d.dwelling_use = DwellingUse.second_home)
  ∧ ∃ tc, get_tax_classification (some d.dwelling_use) d.is_owner_occupied =
        some tc
      ∧ (tc = TaxClassification.HOMESTEAD ∨
         tc = TaxClassification.NHS_RESIDENTIAL)
      ∧ tc ≠ TaxClassification.NHS_NONRESIDENTIAL

lemma classify_use_owner (tax_status : Option TaxStatusR)
    (str_listing : Option STRListingR) :
    ((classify_dwelling tax_status str_listing).dwelling_use =
        DwellingUse.full_time_residence ∧
      (classify_dwelling tax_status str_listing).is_owner_occupied = some true)
    ∨ ((classify_dwelling tax_status str_listing).dwelling_use =
        DwellingUse.short_term_rental ∧
      (classify_dwelling tax_status str_listing).is_owner_occupied = some false)
    ∨ ((classify_dwelling tax_status str_listing).dwelling_use =
        DwellingUse.second_home ∧
      (classify_dwelling tax_status str_listing).is_owner_occupied = none) := by
  unfold classify_dwelling
  by_cases hf : flag_true tax_status
  · simp [hf]
  · by_cases hs : str_listing.isSome
    · simp [hf, hs]
    · simp [hf, hs]

lemma inferred_dwelling_ok_mk (tax_status : Option TaxStatusR)
    (str_listing : Option STRListingR) (ds : List Char) (conf : ℚ)
    (un : Option (List Char)) (att : Option STRListingR) :
    inferred_dwelling_ok
      (mk_dwelling (classify_dwelling tax_status str_listing) ds conf un att) := by
  have h := classify_use_owner tax_status str_listing
  unfold inferred_dwelling_ok mk_dwelling
  rcases h with ⟨hu, ho⟩ | ⟨hu, ho⟩ | ⟨hu, ho⟩ <;>
    simp only [hu, ho] <;>
    refine ⟨by simp, by simp, by simp, by simp, ?_⟩
  · exact ⟨TaxClassification.HOMESTEAD, by decide, by decide, by decide⟩
  · exact ⟨TaxClassification.NHS_RESIDENTIAL, by decide, by decide, by decide⟩
  · exact ⟨TaxClassification.NHS_RESIDENTIAL, by decide, by decide, by decide⟩

/-- Claim C10: every dwelling created by the positive-signal inference engine
has use full-time residence, short-term rental or second home — with the
owner-occupancy flag true exactly for full-time residence, false exactly for
short-term rental and unknown exactly for second home — and its derived tax
classification is always determined and is HOMESTEAD or NHS_RESIDENTIAL,
never NHS_NONRESIDENTIAL (in particular, the engine never produces a
seasonal, vacant, commercial or unknown use). -/
theorem c10_inferred_dwelling_invariant (descprop : Option (List Char))
    (tax_status : Option TaxStatusR) (str_listings : List STRListingR) :
    ∀ d ∈ infer_dwellings_parcel descprop tax_status str_listings,
      inferred_dwelling_ok d := by
  intro d hd
  simp only [infer_dwellings_parcel] at hd
  split at hd
  · rcases List.mem_map.mp hd with ⟨i, _, hdi⟩
    subst hdi
    by_cases hc : i = 0 ∧ flag_true tax_status
    · rw [if_pos hc]
      exact inferred_dwelling_ok_mk _ _ _ _ _ _
    · rw [if_neg hc]
      exact inferred_dwelling_ok_mk _ _ _ _ _ _
  · split at hd
    · rw [List.mem_singleton] at hd
      subst hd
      exact inferred_dwelling_ok_mk _ _ _ _ _ _
    · split at hd
      · rw [List.mem_singleton] at hd
        subst hd
        exact inferred_dwelling_ok_mk _ _ _ _ _ _
      · split at hd
        · simp at hd
        · rcases List.mem_map.mp hd with ⟨l, _, hdl⟩
          subst hdl
          exact inferred_dwelling_ok_mk _ _ _ _ _ _

/-- Claim C10 witness: the invariant holds for the dwelling inferred from a
concrete homestead parcel. -/
theorem c10_inferred_dwelling_invariant_witness :
    inferred_dwelling_ok
      (mk_dwelling (classify_dwelling (some ⟨true, none⟩) none)
        (str "homestead") (95 / 100) none none) := by
  apply c10_inferred_dwelling_invariant (some (str "5 ACRES"))
    (some ⟨true, none⟩) []
  have h0 : parse_descprop_dwelling_count (some (str "5 ACRES")) = 0 := by
    decide
  simp [infer_dwellings_parcel, h0, flag_true]

-- ===========================================================================
-- Owner-String Parser (src/src/schemas.py parse_owner_name, lines 1008-1097,
-- and src/api/scripts/import_vermont_unified.py parse_owner_name, lines
-- 207-303)
-- ===========================================================================

/-- Python `str.strip()` (whitespace at both ends). -/
def stripL (s : List Char) : List Char :=
  ((s.dropWhile isPySpace).reverse.dropWhile isPySpace).reverse

/-- Helper for `titleL`: the flag records whether the previous character was
a cased (alphabetic) one. -/
def titleAux : Bool → List Char → List Char
  | _, [] => []
  | prevCased, c :: rest =>
    if c.isAlpha then
      (if prevCased then c.toLower else c.toUpper) :: titleAux true rest
    else
      c :: titleAux false rest

/-- Python `str.title()` on the ASCII range: uppercase every letter that
follows a non-letter, lowercase the other letters. -/
def titleL (s : List Char) : List Char := titleAux false s

/-- Helper for `splitWs`: accumulates the current token in reverse. -/
def splitWsAux (cur : List Char) : List Char → List (List Char)
  | [] => if cur = [] then [] else [cur.reverse]
  | c :: rest =>
    if isPySpace c then
      if cur = [] then splitWsAux [] rest
      else cur.reverse :: splitWsAux [] rest
    else
      splitWsAux (c :: cur) rest

/-- Python `str.split()` with no argument: split on whitespace runs, dropping
empty tokens. -/
def splitWs (s : List Char) : List (List Char) := splitWsAux [] s

/-- Helper for `splitAmp`. -/
def splitAmpAux (cur : List Char) : List Char → List (List Char)
  | [] => [cur.reverse]
  | c :: rest =>
    if c = '&' then cur.reverse :: splitAmpAux [] rest
    else splitAmpAux (c :: cur) rest

/-- Python `str.split("&")`: split on every ampersand, keeping empty
segments. -/
def splitAmp (s : List Char) : List (List Char) := splitAmpAux [] s

/-- Word characters of the regex `\b` boundary (ASCII): alphanumerics and
underscore. -/
def isWordChar (c : Char) : Bool := c.isAlphanum || c = '_'

/-- One attempt of a `\b<literal>\b` regex at starting position `i`: the
literal occurs at `i`, the previous character (if any) is not a word
character, and the character following the occurrence (if any) is not a word
character.  (All the organization-marker literals begin and end with word
characters, for which `\b` has exactly this meaning.) -/
def matchWordAt (pat s : List Char) (i : Nat) : Bool :=
  List.isPrefixOf pat (s.drop i)
  && (i == 0 || ! isWordChar (s.getD (i - 1) ' '))
  && ! isWordChar (s.getD (i + pat.length) ' ')

/-- `re.search` of a whole-word literal: some starting position matches. -/
def containsWordPat (pat s : List Char) : Bool :=
  (List.range (s.length + 1)).any (fun i => matchWordAt pat s i)

/-- `LLC_PATTERN` = `\bLLC\b|\bL\.L\.C\b` with `re.IGNORECASE`, modelled by
searching the upper-cased subject. -/
def llc_pattern (s : List Char) : Bool :=
  containsWordPat (str "LLC") (upperL s) || containsWordPat (str "L.L.C") (upperL s)

/-- `TRUST_PATTERN` = `\bTRUST\b|\bTRUSTEE\b` with `re.IGNORECASE`. -/
def trust_pattern (s : List Char) : Bool :=
  containsWordPat (str "TRUST") (upperL s) ||
  containsWordPat (str "TRUSTEE") (upperL s)

/-- `CORP_PATTERN` = `\bINC\b|\bCORP\b|\bCORPORATION\b` with `re.IGNORECASE`. -/
def corp_pattern (s : List Char) : Bool :=
  containsWordPat (str "INC") (upperL s) ||
  containsWordPat (str "CORP") (upperL s) ||
  containsWordPat (str "CORPORATION") (upperL s)

/-- `ESTATE_PATTERN` = `\bESTATE\b` with `re.IGNORECASE` (present only in
`src/api/scripts/import_vermont_unified.py`). -/
def estate_pattern (s : List Char) : Bool :=
  containsWordPat (str "ESTATE") (upperL s)

/-- `[A-Z]` of the (case-sensitive) trust-extraction regex. -/
def isUpperAZ (c : Char) : Bool := 'A' ≤ c && c ≤ 'Z'

/-- Tail `\s+TRUST` after a `REVOCABLE` literal. -/
def trust_after_revocable : List Char → Bool
  | [] => false
  | c :: rest =>
    isPySpace c && List.isPrefixOf (str "TRUST") ((c :: rest).dropWhile isPySpace)

/-- Tail `\s+(?:REVOCABLE\s+)?TRUST` of the trust-extraction regex (with the
regex's backtracking over the optional group rendered as a disjunction). -/
def trust_tail_cont : List Char → Bool
  | [] => false
  | c :: rest =>
    isPySpace c &&
    (let r1 := (c :: rest).dropWhile isPySpace
     (List.isPrefixOf (str "REVOCABLE") r1 && trust_after_revocable (r1.drop 9))
     || List.isPrefixOf (str "TRUST") r1)

/-- The optional middle-initial branch `\s+[A-Z]\.?` followed by
`trust_tail_cont`. -/
def trust_mid : List Char → Bool
  | [] => false
  | c :: rest =>
    isPySpace c &&
    (match (c :: rest).dropWhile isPySpace with
     | [] => false
     | d :: rest2 =>
       isUpperAZ d &&
       (match rest2 with
        | '.' :: rest3 => trust_tail_cont rest3 || trust_tail_cont rest2
        | _ => trust_tail_cont rest2))

/-- `re.match` of `^([A-Z]+)\s+([A-Z]+)(?:\s+[A-Z]\.?)?\s+(?:REVOCABLE\s+)?TRUST`
against the original-case name (`src/src/schemas.py` line 1048); returns the
two captured groups.  The two `[A-Z]+` groups are the maximal leading
upper-case runs (shorter choices are immediately refuted by the following
mandatory whitespace, so the regex backtracking is deterministic here). -/
def trust_extract (name : List Char) : Option (List Char × List Char) :=
  let g1 := name.takeWhile isUpperAZ
  let r1 := name.dropWhile isUpperAZ
  if g1 = [] then none
  else
    match r1 with
    | [] => none
    | c :: _ =>
      if ! isPySpace c then none
      else
        let r2 := r1.dropWhile isPySpace
        let g2 := r2.takeWhile isUpperAZ
        if g2 = [] then none
        else if trust_mid (r2.dropWhile isUpperAZ) ||
            trust_tail_cont (r2.dropWhile isUpperAZ) then
          some (g1, g2)
        else none

/-- A person dict built by `parse_owner_name` in `src/src/schemas.py`: the
keys `first_name`, `last_name` and `suffix` may each be absent. -/
structure PersonFrag where
  first_name : Option (List Char) := none
  last_name : Option (List Char) := none
  suffix : Option (List Char) := none
deriving DecidableEq, Repr

/-- The organization dict built by `parse_owner_name` in
`src/src/schemas.py`. -/
structure OrgFrag where
  name : List Char
  otype : OrganizationType
deriving DecidableEq, Repr

/-- The suffix-token set `{"JR", "SR", "II", "III", "IV", "V"}` membership
test applied to `tokens[1].upper()`. -/
def is_suffix_token (t : List Char) : Bool :=
  let u := upperL t
  u = str "JR" || u = str "SR" || u = str "II" || u = str "III" ||
  u = str "IV" || u = str "V"

/-- Python list subscription `l[i]`, raising `IndexError` out of range. -/
def lget (l : List (List Char)) (i : Nat) : Except (List Char) (List Char) :=
  match l.get? i with
  | some x => Except.ok x
  | none => Except.error (str "IndexError")

/-- The `i == 0` branch of the person loop of `parse_owner_name`
(`src/src/schemas.py` lines 1073-1085): `LASTNAME [SUFFIX] FIRSTNAME
[MIDDLE]`, with the suffix recognized only when a third token exists. -/
def build_person0 (tokens : List (List Char)) :
    Except (List Char) PersonFrag :=
  if 2 ≤ tokens.length then do
    let t0 ← lget tokens 0
    let sfx ← (if 3 ≤ tokens.length then
        Except.map is_suffix_token (lget tokens 1)
      else Except.ok false)
    if sfx then do
      let t1 ← lget tokens 1
      let t2 ← lget tokens 2
      Except.ok { last_name := some (titleL t0), suffix := some (upperL t1),
                  first_name := some (titleL t2) }
    else do
      let t1 ← lget tokens 1
      Except.ok { last_name := some (titleL t0), first_name := some (titleL t1) }
  else
    Except.ok {}

/-- The last name inherited by a non-first segment: Python
`people and "last_name" in people[0]` guarding
`person["last_name"] = people[0]["last_name"]`. -/
def inherit_last (people : List PersonFrag) : Option (List Char) :=
  match people with
  | [] => none
  | p0 :: _ => p0.last_name

/-- The `i > 0` branch of the person loop (`src/src/schemas.py` lines
1086-1092): first-name-only, inheriting the first appended person's last name
when that person has one. -/
def build_person_rest (people : List PersonFrag) (tokens : List (List Char)) :
    Except (List Char) PersonFrag :=
  if 1 ≤ tokens.length then do
    let t0 ← lget tokens 0
    Except.ok { first_name := some (titleL t0), last_name := inherit_last people }
  else
    Except.ok {}

/-- Python `if person.get("first_name"): people.append(person)` — the person
is kept only when its first name is present and non-empty. -/
def append_if_named (people : List PersonFrag) (person : PersonFrag) :
    List PersonFrag :=
  match person.first_name with
  | some f => if f = [] then people else people ++ [person]
  | none => people

/-- One iteration of the person loop: tokenize the segment, build the person
dict for position `i`, and append it when its `first_name` is truthy. -/
def parse_person_part (i : Nat) (people : List PersonFrag) (part : List Char) :
    Except (List Char) (List PersonFrag) :=
  let tokens := splitWs part
  if tokens = [] then Except.ok people
  else do
    let person ← if i = 0 then build_person0 tokens
                 else build_person_rest people tokens
    Except.ok (append_if_named people person)

/-- The person loop over the ampersand-separated segments. -/
def parse_parts (i : Nat) (people : List PersonFrag) :
    List (List Char) → Except (List Char) (List PersonFrag)
  | [] => Except.ok people
  | part :: rest => do
    let people2 ← parse_person_part i people part
    parse_parts (i + 1) people2 rest

/-- The person fragments appended by the trust branch (`src/src/schemas.py`
lines 1048-1053). -/
def trust_people (name : List Char) : List PersonFrag :=
  match trust_extract name with
  | some (g1, g2) =>
    [{ last_name := some (titleL g1), first_name := some (titleL g2) }]
  | none => []

/-- `parse_owner_name` from `src/src/schemas.py` (lines 1008-1097): detect
organization markers in priority order LLC, CORP, TRUST (the trust branch
additionally extracting an embedded person), else split on ampersands and
parse person fragments.  Returned in `Except` so that a Python exception
would appear as an `error` value. -/
def parse_owner_name (raw_name : List Char) :
    Except (List Char) (List PersonFrag × Option OrgFrag) :=
  let name := stripL raw_name
  if llc_pattern name then
    Except.ok ([], some { name := name, otype := OrganizationType.llc })
  else if corp_pattern name then
    Except.ok ([], some { name := name, otype := OrganizationType.corporation })
  else if trust_pattern name then
    Except.ok (trust_people name,
      some { name := name, otype := OrganizationType.trust })
  else do
    let people ← parse_parts 0 [] ((splitAmp name).map stripL)
    Except.ok (people, none)

/-- The `ParsedOwner` dataclass of
`src/api/scripts/import_vermont_unified.py`. -/
structure ParsedOwner where
  is_organization : Bool
  org_type : Option (List Char)
  first_name : Option (List Char)
  last_name : Option (List Char)
  suffix : Option (List Char)
  raw_name : List Char
deriving DecidableEq, Repr

/-- Token list of the unified-import person branch: Python
`name.split()` truncated at the first `"&"` token when one is present
(lines 271-281). -/
def unified_tokens (name : List Char) : List (List Char) :=
  let tokens := splitWs name
  if tokens.contains (str "&") then
    tokens.takeWhile (fun t => t ≠ str "&")
  else tokens

/-- `parse_owner_name` from `src/api/scripts/import_vermont_unified.py`
(lines 214-303): organization markers LLC, CORP, TRUST, ESTATE in priority
order (no trust-prefix extraction), else a single person parsed as
`LASTNAME [SUFFIX] FIRSTNAME [MIDDLE]` from the tokens before any `&`. -/
def parse_owner_name_unified (raw_name : List Char) : Option ParsedOwner :=
  if raw_name = [] then none
  else
    let name := stripL raw_name
    if name = [] then none
    else if llc_pattern name then
      some { is_organization := true, org_type := some (str "llc"),
             first_name := none, last_name := none, suffix := none,
             raw_name := name }
    else if corp_pattern name then
      some { is_organization := true, org_type := some (str "corporation"),
             first_name := none, last_name := none, suffix := none,
             raw_name := name }
    else if trust_pattern name then
      some { is_organization := true, org_type := some (str "trust"),
             first_name := none, last_name := none, suffix := none,
             raw_name := name }
    else if estate_pattern name then
      some { is_organization := true, org_type := some (str "estate"),
             first_name := none, last_name := none, suffix := none,
             raw_name := name }
    else
      match unified_tokens name with
      | [] => none
      | t0 :: rest =>
        let last_name := titleL t0
        match rest with
        | [] =>
          some { is_organization := false, org_type := none,
                 first_name := none, last_name := some last_name,
                 suffix := none, raw_name := name }
        | t1 :: rest2 =>
          if is_suffix_token t1 then
            match rest2 with
            | t2 :: _ =>
              some { is_organization := false, org_type := none,
                     first_name := some (titleL t2),
                     last_name := some last_name,
                     suffix := some (upperL t1), raw_name := name }
            | [] =>
              some { is_organization := false, org_type := none,
                     first_name := none, last_name := some last_name,
                     suffix := some (upperL t1), raw_name := name }
          else
            some { is_organization := false, org_type := none,
                   first_name := some (titleL t1), last_name := some last_name,
                   suffix := none, raw_name := name }

-- ===========================================================================
-- C6: totality of the owner parser
-- ===========================================================================

lemma except_bind_ok {α β : Type} (a : α) (f : α → Except (List Char) β) :
    (Except.ok a >>= f) = f a := rfl

lemma lget_ok (l : List (List Char)) (i : Nat) (h : i < l.length) :
    lget l i = Except.ok (l.get ⟨i, h⟩) := by
  unfold lget
  rw [List.get?_eq_get h]

lemma build_person0_isOk (tokens : List (List Char)) :
    ∃ p, build_person0 tokens = Except.ok p := by
  unfold build_person0
  by_cases h2 : 2 ≤ tokens.length
  · rw [if_pos h2, lget_ok tokens 0 (by omega), except_bind_ok]
    by_cases h3 : 3 ≤ tokens.length
    · rw [if_pos h3, lget_ok tokens 1 (by omega)]
      by_cases hs : is_suffix_token (tokens.get ⟨1, by omega⟩)
      · rw [show Except.map is_suffix_token
            (Except.ok (tokens.get ⟨1, by omega⟩) : Except (List Char) (List Char)) =
            Except.ok (is_suffix_token (tokens.get ⟨1, by omega⟩)) from rfl]
        rw [except_bind_ok, hs]
        simp only [if_true]
        rw [except_bind_ok, lget_ok tokens 2 (by omega), except_bind_ok]
        exact ⟨_, rfl⟩
      · rw [show Except.map is_suffix_token
            (Except.ok (tokens.get ⟨1, by omega⟩) : Except (List Char) (List Char)) =
            Except.ok (is_suffix_token (tokens.get ⟨1, by omega⟩)) from rfl]
        rw [except_bind_ok]
        simp only [hs, Bool.false_eq_true, if_false]
        rw [except_bind_ok]
        exact ⟨_, rfl⟩
    · rw [if_neg h3, except_bind_ok]
      simp only [Bool.false_eq_true, if_false]
      rw [lget_ok tokens 1 (by omega), except_bind_ok]
      exact ⟨_, rfl⟩
  · rw [if_neg h2]
    exact ⟨_, rfl⟩

lemma build_person_rest_isOk (people : List PersonFrag)
    (tokens : List (List Char)) :
    ∃ p, build_person_rest people tokens = Except.ok p := by
  unfold build_person_rest
  by_cases h1 : 1 ≤ tokens.length
  · rw [if_pos h1, lget_ok tokens 0 (by omega), except_bind_ok]
    exact ⟨_, rfl⟩
  · rw [if_neg h1]
    exact ⟨_, rfl⟩

lemma parse_person_part_isOk (i : Nat) (people : List PersonFrag)
    (part : List Char) :
    ∃ r, parse_person_part i people part = Except.ok r := by
  unfold parse_person_part
  by_cases ht : splitWs part = []
  · rw [if_pos ht]
    exact ⟨_, rfl⟩
  · rw [if_neg ht]
    by_cases hi : i = 0
    · obtain ⟨p, hp⟩ := build_person0_isOk (splitWs part)
      rw [if_pos hi, hp, except_bind_ok]
      exact ⟨_, rfl⟩
    · obtain ⟨p, hp⟩ := build_person_rest_isOk people (splitWs part)
      rw [if_neg hi, hp, except_bind_ok]
      exact ⟨_, rfl⟩

lemma parse_parts_isOk (parts : List (List Char)) :
    ∀ i people, ∃ r, parse_parts i people parts = Except.ok r := by
  induction parts with
  | nil => intro i people; exact ⟨people, rfl⟩
  | cons part rest ih =>
    intro i people
    obtain ⟨p2, hp2⟩ := parse_person_part_isOk i people part
    obtain ⟨r, hr⟩ := ih (i + 1) p2
    refine ⟨r, ?_⟩
    unfold parse_parts
    rw [hp2, except_bind_ok, hr]

/-- Claim C6: the owner-string parser is total — for every input string,
including the empty string, parsing completes with a well-typed (possibly
empty) list of person fragments and optional organization, never an
exception; the empty string yields the empty result. -/
theorem c6_owner_parsing_total :
    (∀ s, ∃ people org,
      parse_owner_name s = Except.ok (people, org))
    ∧ parse_owner_name [] = Except.ok ([], none) := by
  constructor
  · intro s
    unfold parse_owner_name
    by_cases h1 : llc_pattern (stripL s)
    · rw [if_pos h1]
      exact ⟨_, _, rfl⟩
    · rw [if_neg h1]
      by_cases h2 : corp_pattern (stripL s)
      · rw [if_pos h2]
        exact ⟨_, _, rfl⟩
      · rw [if_neg h2]
        by_cases h3 : trust_pattern (stripL s)
        · rw [if_pos h3]
          exact ⟨_, _, rfl⟩
        · rw [if_neg h3]
          obtain ⟨r, hr⟩ :=
            parse_parts_isOk ((splitAmp (stripL s)).map stripL) 0 []
          rw [hr, except_bind_ok]
          exact ⟨_, _, rfl⟩
  · rfl

-- ===========================================================================
-- C7: joint-owner last-name inheritance
-- ===========================================================================

lemma titleL_ne_nil {s : List Char} (h : s ≠ []) : titleL s ≠ [] := by
  cases s with
  | nil => exact absurd rfl h
  | cons c cs =>
    unfold titleL titleAux
    by_cases hc : c.isAlpha
    · simp [hc]
    · simp [hc]

/-- Claim C7: for every joint-owner string of the form
`LASTNAME FIRST1 & FIRST2` (one segment of two tokens, an ampersand, one
segment of one token, no organization marker), the parser returns exactly two
person fragments, and both share the same last name, the title-cased
`LASTNAME` (the second segment is first-name-only and inherits the first
segment's last name). -/
theorem c7_joint_owner_inheritance :
    ∀ s L F1 F2 p1 p2,
      llc_pattern (stripL s) = false →
      corp_pattern (stripL s) = false →
      trust_pattern (stripL s) = false →
      (splitAmp (stripL s)).map stripL = [p1, p2] →
      splitWs p1 = [L, F1] →
      splitWs p2 = [F2] →
      F1 ≠ [] → F2 ≠ [] →
      parse_owner_name s = Except.ok
        ([{ first_name := some (titleL F1), last_name := some (titleL L),
            suffix := none },
          { first_name := some (titleL F2), last_name := some (titleL L),
            suffix := none }], none) ∧
      ∀ p ∈ [({ first_name := some (titleL F1), last_name := some (titleL L),
                suffix := none } : PersonFrag),
             ({ first_name := some (titleL F2), last_name := some (titleL L),
                suffix := none } : PersonFrag)],
        p.last_name = some (titleL L) := by
  intro s L F1 F2 p1 p2 h1 h2 h3 hparts hsp1 hsp2 hF1 hF2
  have happ1 : append_if_named []
      (⟨some (titleL F1), some (titleL L), none⟩ : PersonFrag) =
      [(⟨some (titleL F1), some (titleL L), none⟩ : PersonFrag)] := by
    unfold append_if_named
    dsimp only
    rw [if_neg (titleL_ne_nil hF1)]
    rfl
  have happ2 : append_if_named
      [(⟨some (titleL F1), some (titleL L), none⟩ : PersonFrag)]
      (⟨some (titleL F2), some (titleL L), none⟩ : PersonFrag) =
      [(⟨some (titleL F1), some (titleL L), none⟩ : PersonFrag),
       (⟨some (titleL F2), some (titleL L), none⟩ : PersonFrag)] := by
    unfold append_if_named
    dsimp only
    rw [if_neg (titleL_ne_nil hF2)]
    rfl
  have h01 : parse_person_part 0 [] p1 = Except.ok
      [(⟨some (titleL F1), some (titleL L), none⟩ : PersonFrag)] := by
    unfold parse_person_part
    simp only [hsp1]
    rw [if_neg (by simp : ¬([L, F1] = ([] : List (List Char))))]
    rw [if_pos trivial]
    rw [show build_person0 [L, F1] = Except.ok
        (⟨some (titleL F1), some (titleL L), none⟩ : PersonFrag) from rfl]
    rw [except_bind_ok, happ1]
  have h12 : parse_person_part 1
      [(⟨some (titleL F1), some (titleL L), none⟩ : PersonFrag)] p2 =
      Except.ok
      [(⟨some (titleL F1), some (titleL L), none⟩ : PersonFrag),
       (⟨some (titleL F2), some (titleL L), none⟩ : PersonFrag)] := by
    unfold parse_person_part
    simp only [hsp2]
    rw [if_neg (by simp : ¬([F2] = ([] : List (List Char))))]
    rw [if_neg (by omega : ¬(1 = 0))]
    rw [show build_person_rest
        [(⟨some (titleL F1), some (titleL L), none⟩ : PersonFrag)] [F2] =
        Except.ok (⟨some (titleL F2), some (titleL L), none⟩ : PersonFrag)
        from rfl]
    rw [except_bind_ok, happ2]
  constructor
  · unfold parse_owner_name
    simp only [h1, h2, h3, Bool.false_eq_true, if_false]
    rw [hparts]
    unfold parse_parts
    rw [h01, except_bind_ok]
    unfold parse_parts
    rw [h12, except_bind_ok]
    rfl
  · intro p hp
    rcases List.mem_cons.mp hp with h | h
    · rw [h]
    · rcases List.mem_cons.mp h with h' | h'
      · rw [h']
      · simp at h'

/-- Claim C7 witness: the joint-owner string `SMITH JOHN & JANE` yields two
fragments both with last name `Smith`. -/
theorem c7_joint_owner_inheritance_witness :
    parse_owner_name (str "SMITH JOHN & JANE") = Except.ok
      ([{ first_name := some (titleL (str "JOHN")),
          last_name := some (titleL (str "SMITH")), suffix := none },
        { first_name := some (titleL (str "JANE")),
          last_name := some (titleL (str "SMITH")), suffix := none }], none) :=
  (c7_joint_owner_inheritance (str "SMITH JOHN & JANE") (str "SMITH")
    (str "JOHN") (str "JANE") (str "SMITH JOHN") (str "JANE")
    (by decide) (by decide) (by decide) (by decide) (by decide) (by decide)
    (by decide) (by decide)).1

-- ===========================================================================
-- C5: organization precedence
-- ===========================================================================

lemma containsWordPat_all_word (pat w : List Char)
    (hw : ∀ c ∈ w, isWordChar c = true) (h : containsWordPat pat w = true) :
    pat = w := by
  unfold containsWordPat at h
  rcases List.any_eq_true.mp h with ⟨i, hi, hm⟩
  rw [List.mem_range] at hi
  unfold matchWordAt at hm
  rw [Bool.and_eq_true, Bool.and_eq_true] at hm
  obtain ⟨⟨hpre, hstart⟩, hend⟩ := hm
  have hi0 : i = 0 := by
    simp only [Bool.or_eq_true] at hstart
    rcases hstart with h0 | h0
    · simpa using h0
    · by_contra hne
      have hlt : i - 1 < w.length := by omega
      have hmem : w.getD (i - 1) ' ' ∈ w := by
        rw [List.getD_eq_getElem w ' ' hlt]
        exact List.getElem_mem hlt
      have hwc := hw _ hmem
      rw [Bool.not_eq_true'] at h0
      rw [hwc] at h0
      exact Bool.noConfusion h0
  subst hi0
  rw [List.drop_zero] at hpre
  have hpw : pat <+: w := List.isPrefixOf_iff_prefix.mp hpre
  have hlen : w.length ≤ pat.length := by
    by_contra hlt
    push_neg at hlt
    have hlt2 : 0 + pat.length < w.length := by omega
    have hmem : w.getD (0 + pat.length) ' ' ∈ w := by
      rw [List.getD_eq_getElem w ' ' hlt2]
      exact List.getElem_mem hlt2
    have hwc := hw _ hmem
    rw [Bool.not_eq_true'] at hend
    rw [hwc] at hend
    exact Bool.noConfusion hend
  exact hpw.eq_of_length (le_antisymm hpw.length_le hlen)

/-- Claim C5 counterexample: the string `SMITH JOHN ESTATE` contains a
whole-word Estate marker, is not the trust-prefix-extraction case, yet the
schema-level owner parser (`src/src/schemas.py`, which checks only LLC, CORP
and TRUST markers) yields a person fragment for it. -/
theorem c5_estate_counterexample :
    estate_pattern (stripL (str "SMITH JOHN ESTATE")) = true ∧
    trust_pattern (stripL (str "SMITH JOHN ESTATE")) = false ∧
    parse_owner_name (str "SMITH JOHN ESTATE") = Except.ok
      ([(⟨some (str "John"), some (str "Smith"), none⟩ : PersonFrag)], none) ∧
    [(⟨some (str "John"), some (str "Smith"), none⟩ : PersonFrag)] ≠ [] := by
  exact ⟨by decide, by decide, by rfl, by simp⟩

/-- Claim C5 (amended): in the schema-level parser, any string containing a
whole-word LLC marker yields no person fragments; any string with a CORP
marker (and no LLC) yields no person fragments; any string with a TRUST
marker (and no LLC/CORP) yields person fragments exactly as produced by the
trust-prefix extraction, so none outside that case.  The Estate marker is
recognized only by the unified-import parser, where each of the four marker
categories yields an organization with no person name parts (and no
trust-prefix extraction).  Whole-word matching guarantees that a marker can
fire inside a single word (such as an ordinary surname) only when the word is
the marker itself. -/
theorem c5_organization_precedence :
    (∀ s, llc_pattern (stripL s) = true →
      parse_owner_name s = Except.ok
        ([], some ⟨stripL s, OrganizationType.llc⟩))
    ∧ (∀ s, llc_pattern (stripL s) = false → corp_pattern (stripL s) = true →
      parse_owner_name s = Except.ok
        ([], some ⟨stripL s, OrganizationType.corporation⟩))
    ∧ (∀ s, llc_pattern (stripL s) = false → corp_pattern (stripL s) = false →
        trust_pattern (stripL s) = true →
      parse_owner_name s = Except.ok
        (trust_people (stripL s), some ⟨stripL s, OrganizationType.trust⟩)
      ∧ (trust_extract (stripL s) = none → trust_people (stripL s) = []))
    ∧ (∀ s, (llc_pattern (stripL s) || corp_pattern (stripL s) ||
        trust_pattern (stripL s) || estate_pattern (stripL s)) = true →
      ∃ r, parse_owner_name_unified s = some r ∧ r.is_organization = true ∧
        r.first_name = none ∧ r.last_name = none)
    ∧ (∀ pat w, (∀ c ∈ w, isWordChar c = true) →
        containsWordPat pat w = true → pat = w) := by
  refine ⟨?_, ?_, ?_, ?_, containsWordPat_all_word⟩
  · intro s h1
    unfold parse_owner_name
    rw [if_pos h1]
  · intro s h1 h2
    unfold parse_owner_name
    simp only [h1, Bool.false_eq_true, if_false]
    rw [if_pos h2]
  · intro s h1 h2 h3
    constructor
    · unfold parse_owner_name
      simp only [h1, h2, Bool.false_eq_true, if_false]
      rw [if_pos h3]
    · intro h
      unfold trust_people
      rw [h]
  · intro s hmark
    have hs : s ≠ [] := by
      intro he
      subst he
      exact absurd hmark (by decide)
    have hn : stripL s ≠ [] := by
      intro he
      rw [he] at hmark
      exact absurd hmark (by decide)
    unfold parse_owner_name_unified
    rw [if_neg hs, if_neg hn]
    by_cases h1 : llc_pattern (stripL s)
    · rw [if_pos h1]
      exact ⟨_, rfl, rfl, rfl, rfl⟩
    · rw [if_neg h1]
      by_cases h2 : corp_pattern (stripL s)
      · rw [if_pos h2]
        exact ⟨_, rfl, rfl, rfl, rfl⟩
      · rw [if_neg h2]
        by_cases h3 : trust_pattern (stripL s)
        · rw [if_pos h3]
          exact ⟨_, rfl, rfl, rfl, rfl⟩
        · rw [if_neg h3]
          have h4 : estate_pattern (stripL s) = true := by
            simp only [Bool.or_eq_true] at hmark
            rcases hmark with ((hx | hx) | hx) | hx
            · exact absurd hx h1
            · exact absurd hx h2
            · exact absurd hx h3
            · exact hx
          rw [if_pos h4]
          exact ⟨_, rfl, rfl, rfl, rfl⟩

/-- Claim C5 witness: the LLC, trust and estate branches at concrete inputs
from the repository's own examples. -/
theorem c5_organization_precedence_witness :
    parse_owner_name (str "MAD RIVER LLC") = Except.ok
      ([], some ⟨stripL (str "MAD RIVER LLC"), OrganizationType.llc⟩)
    ∧ parse_owner_name (str "WESTON STACEY B REVOCABLE TRUST") = Except.ok
      (trust_people (stripL (str "WESTON STACEY B REVOCABLE TRUST")),
       some ⟨stripL (str "WESTON STACEY B REVOCABLE TRUST"),
         OrganizationType.trust⟩)
    ∧ (∃ r, parse_owner_name_unified (str "SMITH JOHN ESTATE") = some r ∧
        r.is_organization = true ∧ r.first_name = none ∧ r.last_name = none) :=
  ⟨c5_organization_precedence.1 (str "MAD RIVER LLC") (by decide),
   (c5_organization_precedence.2.2.1 (str "WESTON STACEY B REVOCABLE TRUST")
     (by decide) (by decide) (by decide)).1,
   c5_organization_precedence.2.2.2.1 (str "SMITH JOHN ESTATE") (by decide)⟩

end OpenValley
